import Mathlib

/-!
Shallow embedding of the clientservice core of waveterm: client/window/block
data model, the store-with-journal state, the event bus, and the handlers
`FocusWindow`, `AgreeTos` and `BootstrapStarterLayout`, translated from
`pkg/service/clientservice` Go source. Components that live outside the
given source (the `wstore` object store, the update journal, `utilfn`
slice helpers, `objectservice.CreateBlock_NoUI`, the event bus) are
modelled from the specification, as marked on each definition.
-/

set_option autoImplicit false

/-- A heterogeneous metadata value stored in a Block `Meta` map. -/
inductive MetaVal where
  | str (s : String)
  | boolVal (b : Bool)
deriving DecidableEq, Repr

/-- `wstore.MetaMapType`: string-keyed metadata mapping. -/
def MetaMapType := List (String × MetaVal)
deriving instance DecidableEq, Repr for MetaMapType

def MetaKey_View : String := "view"
def MetaKey_Controller : String := "controller"
def MetaKey_Url : String := "url"
def MetaKey_File : String := "file"

/-- `wstore.BlockDef`: a block definition, carrying only its metadata. -/
structure BlockDef where
  Meta : MetaMapType
deriving DecidableEq, Repr

/-- `wstore.Client`: the singleton client record. -/
structure Client where
  OID : String
  WindowIds : List String
  TosAgreed : Int
deriving DecidableEq, Repr

/-- `wstore.Window`: a window, holding its active tab reference. -/
structure Window where
  OID : String
  ActiveTabId : String
deriving DecidableEq, Repr

/-- `wstore.Block`: a persisted content block. -/
structure Block where
  OID : String
  TabId : String
  Meta : MetaMapType
deriving DecidableEq, Repr

/-- One update record of the journal: a mutation performed via the store. -/
inductive UpdateRecord where
  | updatedClient (c : Client)
  | createdBlock (b : Block)
deriving DecidableEq, Repr

/-- `wstore.UpdatesRtnType`: the ordered update batch drained from a journal. -/
def UpdatesRtnType := List UpdateRecord
deriving instance DecidableEq, Repr for UpdatesRtnType

def WSEvent_LayoutAction : String := "layoutaction"

/-- `eventbus.WSLayoutActionData`: payload of a layout action event. -/
structure WSLayoutActionData where
  ActionType : String
  TabId : String
  BlockId : String
  IndexArr : List Int
  NodeSize : Nat
deriving DecidableEq, Repr

/-- `eventbus.WSEventType`: a typed event envelope. -/
structure WSEventType where
  EventType : String
  Data : WSLayoutActionData
deriving DecidableEq, Repr

/-- The whole observable state a handler threads: the object store
(client singleton, windows, blocks), the request context's journal
(`hasJournal`/`journal`), the emitted event log, a fresh-OID counter,
and a schedule of injected block-creation failures used to model the
store failing a `Create` call (head of the list decides the next call). -/
structure World where
  client : Option Client
  windows : List Window
  blocks : List Block
  nextOid : Nat
  failSchedule : List Bool
  hasJournal : Bool
  journal : List UpdateRecord
  events : List (String × WSEventType)
deriving DecidableEq, Repr

/-- Modelled from the spec: store mutations performed with a
journal-carrying context append an Update Record to the context's buffer. -/
def recordUpdate (w : World) (r : UpdateRecord) : World :=
  if w.hasJournal then { w with journal := w.journal ++ [r] } else w

/-- Modelled from the spec: `wstore.ContextWithUpdates` returns a derived
context carrying an empty journal; a context already carrying one is
returned unchanged (idempotent). -/
def ContextWithUpdates (w : World) : World :=
  if w.hasJournal then w else { w with hasJournal := true, journal := [] }

/-- Modelled from the spec: `wstore.ContextGetUpdatesRtn` returns the
accumulated ordered batch without clearing it. -/
def ContextGetUpdatesRtn (w : World) : List UpdateRecord :=
  w.journal

/-- Modelled from the spec: `wstore.DBGetSingleton[*wstore.Client]` returns
the unique Client instance, failing if none exists. -/
def DBGetSingletonClient (w : World) : Except String Client :=
  match w.client with
  | some c => Except.ok c
  | none => Except.error "singleton not found"

/-- Modelled from the spec: `wstore.DBMustGet[*wstore.Window]` fails with an
error if the object is absent. -/
def DBMustGetWindow (w : World) (id : String) : Except String Window :=
  match w.windows.find? (fun win => win.OID = id) with
  | some win => Except.ok win
  | none => Except.error "object not found"

/-- Modelled from the spec: `wstore.DBUpdate` on the Client singleton
persists a full replacement, fails if the object no longer exists, and
journals the mutation when the context carries a journal. -/
def DBUpdateClient (w : World) (c : Client) : Except String Unit × World :=
  match w.client with
  | none => (Except.error "client does not exist", w)
  | some _ => (Except.ok (), recordUpdate { w with client := some c } (UpdateRecord.updatedClient c))

/-- Fresh block identifiers assigned by the store's `Create`. -/
def oidOf (n : Nat) : String := "block-" ++ toString n

/-- Modelled from the spec: `objectservice.CreateBlock_NoUI` allocates a new
Block from the definition, assigns an identifier, persists it, and journals
the creation when the context carries a journal. An injected failure (head
of `failSchedule`) makes the create fail without persisting anything. -/
def CreateBlock_NoUI (w : World) (tabId : String) (bdef : BlockDef) : Except String Block × World :=
  if w.failSchedule.headD false then
    (Except.error "create block failed", { w with failSchedule := w.failSchedule.tail })
  else
    let b : Block := { OID := oidOf w.nextOid, TabId := tabId, Meta := bdef.Meta }
    (Except.ok b,
      recordUpdate
        { w with failSchedule := w.failSchedule.tail,
                 nextOid := w.nextOid + 1,
                 blocks := w.blocks ++ [b] }
        (UpdateRecord.createdBlock b))

/-- Modelled from the spec: `eventbus.SendEventToWindow` is fire-and-forget
push delivery addressed by window ID; the issuing call never fails. The
world records the ordered log of emitted events. -/
def SendEventToWindow (w : World) (windowId : String) (ev : WSEventType) : World :=
  { w with events := w.events ++ [(windowId, ev)] }

/-- `GetClientData`: resolves the singleton Client, wrapping store errors. -/
def GetClientData (w : World) : Except String Client :=
  match DBGetSingletonClient w with
  | Except.error e => Except.error ("error getting client data: " ++ e)
  | Except.ok c => Except.ok c

/-- Modelled from the spec: `utilfn.SliceIdx` returns the position of the
element in the slice, or -1 when absent. -/
def SliceIdx (xs : List String) (x : String) : Int :=
  match xs with
  | [] => -1
  | y :: ys =>
    if y = x then 0
    else if SliceIdx ys x = -1 then -1 else SliceIdx ys x + 1

/-- Modelled from the spec: `utilfn.MoveSliceIdxToFront` removes the element
at the index and reinserts it at index 0, preserving the relative order of
all other entries. -/
def MoveSliceIdxToFront (xs : List String) (idx : Nat) : List String :=
  match xs.get? idx with
  | none => xs
  | some x => x :: (xs.take idx ++ xs.drop (idx + 1))

/-- `FocusWindow`: moves the window to the front of the WindowIds stack. -/
def FocusWindow (w : World) (windowId : String) : Except String Unit × World :=
  match GetClientData w with
  | Except.error e => (Except.error e, w)
  | Except.ok client =>
    let winIdx := SliceIdx client.WindowIds windowId
    if winIdx = -1 then (Except.ok (), w)
    else
      DBUpdateClient w { client with WindowIds := MoveSliceIdxToFront client.WindowIds winIdx.toNat }

/-- One entry of a `PortableLayout`: index path, optional size, block def. -/
structure PortableLayoutItem where
  IndexArr : List Int
  Size : Nat := 0
  blockDef : BlockDef
deriving DecidableEq, Repr

instance : Inhabited PortableLayoutItem :=
  ⟨{ IndexArr := [], blockDef := { Meta := [] } }⟩

/-- The fixed 7-step starter layout of `BootstrapStarterLayout`. -/
def starterLayout : List PortableLayoutItem :=
  [ { IndexArr := [0], blockDef := { Meta :=
        [(MetaKey_View, MetaVal.str "term"), (MetaKey_Controller, MetaVal.str "shell")] } },
    { IndexArr := [1], blockDef := { Meta :=
        [(MetaKey_View, MetaVal.str "cpuplot")] } },
    { IndexArr := [1, 1], blockDef := { Meta :=
        [(MetaKey_View, MetaVal.str "web"),
         (MetaKey_Url, MetaVal.str "https://github.com/wavetermdev/waveterm")] } },
    { IndexArr := [1, 2], blockDef := { Meta :=
        [(MetaKey_View, MetaVal.str "preview"), (MetaKey_File, MetaVal.str "~")] } },
    { IndexArr := [2], blockDef := { Meta :=
        [(MetaKey_View, MetaVal.str "term"), (MetaKey_Controller, MetaVal.str "shell")] } },
    { IndexArr := [2, 1], blockDef := { Meta :=
        [(MetaKey_View, MetaVal.str "waveai")] } },
    { IndexArr := [2, 2], blockDef := { Meta :=
        [(MetaKey_View, MetaVal.str "web"),
         (MetaKey_Url, MetaVal.str "https://www.youtube.com/embed/cKqsw_sAsU8")] } } ]

/-- The layout-insert event emitted for one bootstrap step. -/
def layoutInsertEvent (tabId blockId : String) (indexArr : List Int) (size : Nat) : WSEventType :=
  { EventType := WSEvent_LayoutAction,
    Data := { ActionType := "insertatindex", TabId := tabId, BlockId := blockId,
              IndexArr := indexArr, NodeSize := size } }

/-- The per-step loop of `BootstrapStarterLayout`: create the Block, then
immediately emit the layout-insert event for it to the target window. -/
def bootstrapLoop (tabId windowId : String) : List PortableLayoutItem → World → Except String Unit × World
  | [], w => (Except.ok (), w)
  | item :: rest, w =>
    match CreateBlock_NoUI w tabId item.blockDef with
    | (Except.error e, w1) => (Except.error ("unable to create block for starter layout: " ++ e), w1)
    | (Except.ok blockData, w1) =>
      bootstrapLoop tabId windowId rest
        (SendEventToWindow w1 windowId
          (layoutInsertEvent tabId blockData.OID item.IndexArr item.Size))

/-- `BootstrapStarterLayout`: resolve the Client, pick its first window and
that window's active tab, then run the fixed 7-step layout. -/
def BootstrapStarterLayout (w : World) : Except String Unit × World :=
  match DBGetSingletonClient w with
  | Except.error e => (Except.error ("unable to find client: " ++ e), w)
  | Except.ok client =>
    match client.WindowIds with
    | [] => (Except.error "error bootstrapping layout, no windows exist", w)
    | windowId :: _ =>
      match DBMustGetWindow w windowId with
      | Except.error e => (Except.error ("error getting window: " ++ e), w)
      | Except.ok window =>
        bootstrapLoop window.ActiveTabId windowId starterLayout w

/-- `AgreeTos`: opens a journaled context, updates the Client's TosAgreed
timestamp, runs the starter-layout bootstrap (discarding its result), and
returns the drained update batch with a nil error. The Go pair return
`(UpdatesRtnType, error)` is modelled as `List UpdateRecord × Option String`. -/
def AgreeTos (timestamp : Int) (w : World) : (List UpdateRecord × Option String) × World :=
  let w0 := ContextWithUpdates w
  match DBGetSingletonClient w0 with
  | Except.error e => (([], some ("error getting client data: " ++ e)), w0)
  | Except.ok clientData =>
    match DBUpdateClient w0 { clientData with TosAgreed := timestamp } with
    | (Except.error e, w1) => (([], some ("error updating client data: " ++ e)), w1)
    | (Except.ok _, w1) =>
      ((ContextGetUpdatesRtn (BootstrapStarterLayout w1).2, none), (BootstrapStarterLayout w1).2)

/-- The blocks that a run of layout steps creates, given the tab and the
store's next fresh-OID counter. -/
def blocksFor (tabId : String) : Nat → List PortableLayoutItem → List Block
  | _, [] => []
  | n, item :: rest =>
    { OID := oidOf n, TabId := tabId, Meta := item.blockDef.Meta } :: blocksFor tabId (n + 1) rest

/-- The layout-insert events that a run of layout steps emits, in step
order, each carrying its step's index path and its step's fresh block OID. -/
def eventsFor (tabId windowId : String) : Nat → List PortableLayoutItem → List (String × WSEventType)
  | _, [] => []
  | n, item :: rest =>
    (windowId, layoutInsertEvent tabId (oidOf n) item.IndexArr item.Size)
      :: eventsFor tabId windowId (n + 1) rest

/-- The WindowIds list of the world's client, when a client exists. -/
def clientWindowIds (w : World) : Option (List String) :=
  w.client.map Client.WindowIds

/-- A list of index paths is in tree-construction order when every path of
length greater than one is preceded by a step whose path is its immediate
parent (the path with the last element removed). -/
def isTreeConstructionOrder (paths : List (List Int)) : Prop :=
  ∀ i, i < paths.length → 1 < (paths.getD i []).length →
    ∃ j, j < i ∧ paths.getD j [] = (paths.getD i []).dropLast

/-- A concrete world: one client, one window with an active tab, no
injected failures. -/
def wOneWin : World :=
  { client := some { OID := "client1", WindowIds := ["win1"], TosAgreed := 0 },
    windows := [{ OID := "win1", ActiveTabId := "tab1" }],
    blocks := [], nextOid := 0, failSchedule := [], hasJournal := false,
    journal := [], events := [] }

/-- Like `wOneWin`, but the third block creation is scheduled to fail. -/
def wFailAt3 : World :=
  { wOneWin with failSchedule := [false, false, true] }

/-- A concrete world whose client has no windows. -/
def wNoWin : World :=
  { wOneWin with client := some { OID := "client1", WindowIds := [], TosAgreed := 0 } }

/-- A concrete world with no client record at all. -/
def wNoClient : World :=
  { wOneWin with client := none }

/-- A concrete world whose client has three windows. -/
def wThreeWin : World :=
  { wOneWin with client := some { OID := "client1", WindowIds := ["a", "b", "c"], TosAgreed := 0 } }

@[simp] theorem recordUpdate_client (w : World) (r : UpdateRecord) :
    (recordUpdate w r).client = w.client := by
  unfold recordUpdate; split <;> rfl

@[simp] theorem recordUpdate_windows (w : World) (r : UpdateRecord) :
    (recordUpdate w r).windows = w.windows := by
  unfold recordUpdate; split <;> rfl

@[simp] theorem recordUpdate_blocks (w : World) (r : UpdateRecord) :
    (recordUpdate w r).blocks = w.blocks := by
  unfold recordUpdate; split <;> rfl

@[simp] theorem recordUpdate_nextOid (w : World) (r : UpdateRecord) :
    (recordUpdate w r).nextOid = w.nextOid := by
  unfold recordUpdate; split <;> rfl

@[simp] theorem recordUpdate_failSchedule (w : World) (r : UpdateRecord) :
    (recordUpdate w r).failSchedule = w.failSchedule := by
  unfold recordUpdate; split <;> rfl

@[simp] theorem recordUpdate_hasJournal (w : World) (r : UpdateRecord) :
    (recordUpdate w r).hasJournal = w.hasJournal := by
  unfold recordUpdate; split <;> rfl

@[simp] theorem recordUpdate_events (w : World) (r : UpdateRecord) :
    (recordUpdate w r).events = w.events := by
  unfold recordUpdate; split <;> rfl

theorem recordUpdate_journal (w : World) (r : UpdateRecord) :
    ∃ t, (recordUpdate w r).journal = w.journal ++ t := by
  unfold recordUpdate; split
  · exact ⟨[r], rfl⟩
  · exact ⟨[], by simp⟩

@[simp] theorem contextWithUpdates_client (w : World) :
    (ContextWithUpdates w).client = w.client := by
  unfold ContextWithUpdates; split <;> rfl

@[simp] theorem contextWithUpdates_windows (w : World) :
    (ContextWithUpdates w).windows = w.windows := by
  unfold ContextWithUpdates; split <;> rfl

@[simp] theorem contextWithUpdates_blocks (w : World) :
    (ContextWithUpdates w).blocks = w.blocks := by
  unfold ContextWithUpdates; split <;> rfl

@[simp] theorem contextWithUpdates_nextOid (w : World) :
    (ContextWithUpdates w).nextOid = w.nextOid := by
  unfold ContextWithUpdates; split <;> rfl

@[simp] theorem contextWithUpdates_failSchedule (w : World) :
    (ContextWithUpdates w).failSchedule = w.failSchedule := by
  unfold ContextWithUpdates; split <;> rfl

@[simp] theorem contextWithUpdates_events (w : World) :
    (ContextWithUpdates w).events = w.events := by
  unfold ContextWithUpdates; split <;> rfl

@[simp] theorem contextWithUpdates_hasJournal (w : World) :
    (ContextWithUpdates w).hasJournal = true := by
  unfold ContextWithUpdates; split
  · assumption
  · rfl

theorem createBlock_ok_eq (w : World) (tabId : String) (bdef : BlockDef)
    (hfail : w.failSchedule.headD false = false) :
    CreateBlock_NoUI w tabId bdef =
      (Except.ok { OID := oidOf w.nextOid, TabId := tabId, Meta := bdef.Meta },
        recordUpdate
          { w with failSchedule := w.failSchedule.tail,
                   nextOid := w.nextOid + 1,
                   blocks := w.blocks ++ [{ OID := oidOf w.nextOid, TabId := tabId, Meta := bdef.Meta }] }
          (UpdateRecord.createdBlock { OID := oidOf w.nextOid, TabId := tabId, Meta := bdef.Meta })) := by
  unfold CreateBlock_NoUI
  rw [hfail]
  simp

theorem bootstrapLoop_ok (tabId windowId : String) :
    ∀ (steps : List PortableLayoutItem) (w : World), w.failSchedule = [] →
      (bootstrapLoop tabId windowId steps w).1 = Except.ok () ∧
      (bootstrapLoop tabId windowId steps w).2.blocks = w.blocks ++ blocksFor tabId w.nextOid steps ∧
      (bootstrapLoop tabId windowId steps w).2.events = w.events ++ eventsFor tabId windowId w.nextOid steps ∧
      (bootstrapLoop tabId windowId steps w).2.client = w.client ∧
      (bootstrapLoop tabId windowId steps w).2.hasJournal = w.hasJournal := by
  intro steps
  induction steps with
  | nil =>
    intro w hfail
    refine ⟨rfl, ?_, ?_, rfl, rfl⟩ <;> simp [bootstrapLoop, blocksFor, eventsFor]
  | cons item rest ih =>
    intro w hfail
    have hhd : w.failSchedule.headD false = false := by rw [hfail]; rfl
    have hstep : bootstrapLoop tabId windowId (item :: rest) w =
        bootstrapLoop tabId windowId rest
          (SendEventToWindow
            (recordUpdate
              { w with failSchedule := w.failSchedule.tail,
                       nextOid := w.nextOid + 1,
                       blocks := w.blocks ++ [{ OID := oidOf w.nextOid, TabId := tabId, Meta := item.blockDef.Meta }] }
              (UpdateRecord.createdBlock { OID := oidOf w.nextOid, TabId := tabId, Meta := item.blockDef.Meta }))
            windowId (layoutInsertEvent tabId (oidOf w.nextOid) item.IndexArr item.Size)) := by
      conv_lhs => rw [bootstrapLoop, createBlock_ok_eq w tabId item.blockDef hhd]
    set w2 := SendEventToWindow
        (recordUpdate
          { w with failSchedule := w.failSchedule.tail,
                   nextOid := w.nextOid + 1,
                   blocks := w.blocks ++ [{ OID := oidOf w.nextOid, TabId := tabId, Meta := item.blockDef.Meta }] }
          (UpdateRecord.createdBlock { OID := oidOf w.nextOid, TabId := tabId, Meta := item.blockDef.Meta }))
        windowId (layoutInsertEvent tabId (oidOf w.nextOid) item.IndexArr item.Size) with hw2
    have h2 : w2.failSchedule = [] := by
      rw [hw2]; simp [SendEventToWindow, hfail]
    obtain ⟨h1, hb, he, hc, hj⟩ := ih w2 h2
    rw [hstep]
    refine ⟨h1, ?_, ?_, ?_, ?_⟩
    · rw [hb, hw2]
      simp [SendEventToWindow, blocksFor]
    · rw [he, hw2]
      simp [SendEventToWindow, eventsFor]
    · rw [hc, hw2]; simp [SendEventToWindow]
    · rw [hj, hw2]; simp [SendEventToWindow]

theorem bootstrapLoop_fail (tabId windowId : String) :
    ∀ (j : Nat) (steps : List PortableLayoutItem) (w : World),
      w.failSchedule = List.replicate j false ++ [true] → j < steps.length →
      (∃ e, (bootstrapLoop tabId windowId steps w).1 = Except.error e) ∧
      (bootstrapLoop tabId windowId steps w).2.blocks = w.blocks ++ blocksFor tabId w.nextOid (steps.take j) ∧
      (bootstrapLoop tabId windowId steps w).2.events = w.events ++ eventsFor tabId windowId w.nextOid (steps.take j) ∧
      (bootstrapLoop tabId windowId steps w).2.client = w.client := by
  intro j
  induction j with
  | zero =>
    intro steps w hfail hlen
    match steps with
    | [] => simp at hlen
    | item :: rest =>
      have hhd : w.failSchedule.headD false = true := by rw [hfail]; rfl
      have hstep : bootstrapLoop tabId windowId (item :: rest) w =
          (Except.error ("unable to create block for starter layout: " ++ "create block failed"),
            { w with failSchedule := w.failSchedule.tail }) := by
        conv_lhs => rw [bootstrapLoop]
        unfold CreateBlock_NoUI
        rw [hhd]
        rfl
      rw [hstep]
      refine ⟨⟨_, rfl⟩, ?_, ?_, rfl⟩ <;> simp [blocksFor, eventsFor]
  | succ j ih =>
    intro steps w hfail hlen
    match steps with
    | [] => simp at hlen
    | item :: rest =>
      have hhd : w.failSchedule.headD false = false := by rw [hfail]; rfl
      have hstep : bootstrapLoop tabId windowId (item :: rest) w =
          bootstrapLoop tabId windowId rest
            (SendEventToWindow
              (recordUpdate
                { w with failSchedule := w.failSchedule.tail,
                         nextOid := w.nextOid + 1,
                         blocks := w.blocks ++ [{ OID := oidOf w.nextOid, TabId := tabId, Meta := item.blockDef.Meta }] }
                (UpdateRecord.createdBlock { OID := oidOf w.nextOid, TabId := tabId, Meta := item.blockDef.Meta }))
              windowId (layoutInsertEvent tabId (oidOf w.nextOid) item.IndexArr item.Size)) := by
        conv_lhs => rw [bootstrapLoop, createBlock_ok_eq w tabId item.blockDef hhd]
      set w2 := SendEventToWindow
          (recordUpdate
            { w with failSchedule := w.failSchedule.tail,
                     nextOid := w.nextOid + 1,
                     blocks := w.blocks ++ [{ OID := oidOf w.nextOid, TabId := tabId, Meta := item.blockDef.Meta }] }
            (UpdateRecord.createdBlock { OID := oidOf w.nextOid, TabId := tabId, Meta := item.blockDef.Meta }))
          windowId (layoutInsertEvent tabId (oidOf w.nextOid) item.IndexArr item.Size) with hw2
      have h2 : w2.failSchedule = List.replicate j false ++ [true] := by
        rw [hw2]; simp [SendEventToWindow, hfail, List.replicate_succ]
      have hlen2 : j < rest.length := by simpa using Nat.lt_of_succ_lt_succ hlen
      obtain ⟨he1, hb, hev, hc⟩ := ih rest w2 h2 hlen2
      rw [hstep]
      refine ⟨he1, ?_, ?_, ?_⟩
      · rw [hb, hw2]
        simp [SendEventToWindow, blocksFor]
      · rw [hev, hw2]
        simp [SendEventToWindow, eventsFor]
      · rw [hc, hw2]; simp [SendEventToWindow]

theorem bootstrapLoop_mono (tabId windowId : String) :
    ∀ (steps : List PortableLayoutItem) (w : World),
      (bootstrapLoop tabId windowId steps w).2.hasJournal = w.hasJournal ∧
      (bootstrapLoop tabId windowId steps w).2.client = w.client ∧
      ∃ t, (bootstrapLoop tabId windowId steps w).2.journal = w.journal ++ t := by
  intro steps
  induction steps with
  | nil =>
    intro w
    exact ⟨rfl, rfl, [], by simp [bootstrapLoop]⟩
  | cons item rest ih =>
    intro w
    by_cases hhd : w.failSchedule.headD false
    · have hstep : bootstrapLoop tabId windowId (item :: rest) w =
          (Except.error ("unable to create block for starter layout: " ++ "create block failed"),
            { w with failSchedule := w.failSchedule.tail }) := by
        conv_lhs => rw [bootstrapLoop]
        unfold CreateBlock_NoUI
        rw [hhd]
        rfl
      rw [hstep]
      exact ⟨rfl, rfl, [], by simp⟩
    · rw [Bool.not_eq_true] at hhd
      have hstep : bootstrapLoop tabId windowId (item :: rest) w =
          bootstrapLoop tabId windowId rest
            (SendEventToWindow
              (recordUpdate
                { w with failSchedule := w.failSchedule.tail,
                         nextOid := w.nextOid + 1,
                         blocks := w.blocks ++ [{ OID := oidOf w.nextOid, TabId := tabId, Meta := item.blockDef.Meta }] }
                (UpdateRecord.createdBlock { OID := oidOf w.nextOid, TabId := tabId, Meta := item.blockDef.Meta }))
              windowId (layoutInsertEvent tabId (oidOf w.nextOid) item.IndexArr item.Size)) := by
        conv_lhs => rw [bootstrapLoop, createBlock_ok_eq w tabId item.blockDef hhd]
      set w2 := SendEventToWindow
          (recordUpdate
            { w with failSchedule := w.failSchedule.tail,
                     nextOid := w.nextOid + 1,
                     blocks := w.blocks ++ [{ OID := oidOf w.nextOid, TabId := tabId, Meta := item.blockDef.Meta }] }
            (UpdateRecord.createdBlock { OID := oidOf w.nextOid, TabId := tabId, Meta := item.blockDef.Meta }))
          windowId (layoutInsertEvent tabId (oidOf w.nextOid) item.IndexArr item.Size) with hw2
      obtain ⟨hj, hc, t, ht⟩ := ih w2
      obtain ⟨t0, ht0⟩ := recordUpdate_journal
        { w with failSchedule := w.failSchedule.tail,
                 nextOid := w.nextOid + 1,
                 blocks := w.blocks ++ [{ OID := oidOf w.nextOid, TabId := tabId, Meta := item.blockDef.Meta }] }
        (UpdateRecord.createdBlock { OID := oidOf w.nextOid, TabId := tabId, Meta := item.blockDef.Meta })
      rw [hstep]
      refine ⟨?_, ?_, t0 ++ t, ?_⟩
      · rw [hj, hw2]; simp [SendEventToWindow]
      · rw [hc, hw2]; simp [SendEventToWindow]
      · rw [ht, hw2]
        simp only [SendEventToWindow]
        rw [ht0]
        simp

theorem sliceIdx_of_not_mem (x : String) : ∀ (xs : List String), x ∉ xs → SliceIdx xs x = -1 := by
  intro xs
  induction xs with
  | nil => intro _; rfl
  | cons y ys ih =>
    intro h
    have hy : ¬(y = x) := fun he => h (he ▸ List.mem_cons_self y ys)
    have hx : x ∉ ys := fun hm => h (List.mem_cons_of_mem y hm)
    simp [SliceIdx, hy, ih hx]

theorem sliceIdx_spec (x : String) : ∀ (xs : List String), x ∈ xs →
    ∃ n : Nat, SliceIdx xs x = (n : Int) ∧ xs.get? n = some x ∧
      MoveSliceIdxToFront xs n = x :: xs.erase x := by
  intro xs
  induction xs with
  | nil => intro h; cases h
  | cons y ys ih =>
    intro h
    by_cases hy : y = x
    · subst hy
      refine ⟨0, by simp [SliceIdx], rfl, ?_⟩
      simp [MoveSliceIdxToFront, List.erase_cons_head]
    · have hx : x ∈ ys := by
        rcases List.mem_cons.mp h with h | h
        · exact absurd h.symm hy
        · exact h
      obtain ⟨n, h1, h2, h3⟩ := ih hx
      have hne : SliceIdx ys x ≠ -1 := by rw [h1]; omega
      refine ⟨n + 1, ?_, ?_, ?_⟩
      · simp [SliceIdx, hy, hne, h1]
      · simpa using h2
      · have hinner : ys.take n ++ ys.drop (n + 1) = ys.erase x := by
          have h3' := h3
          unfold MoveSliceIdxToFront at h3'
          rw [h2] at h3'
          rw [List.cons.injEq] at h3'
          exact h3'.2
        unfold MoveSliceIdxToFront
        have hget : (y :: ys).get? (n + 1) = some x := by simpa using h2
        rw [hget]
        simp [List.erase_cons, hy, List.take_succ_cons, List.drop_succ_cons, hinner]

theorem focusWindow_no_client (w : World) (windowId : String) (hc : w.client = none) :
    FocusWindow w windowId =
      (Except.error ("error getting client data: " ++ "singleton not found"), w) := by
  simp [FocusWindow, GetClientData, DBGetSingletonClient, hc]

theorem focusWindow_not_mem (w : World) (c : Client) (windowId : String)
    (hc : w.client = some c) (hmem : windowId ∉ c.WindowIds) :
    FocusWindow w windowId = (Except.ok (), w) := by
  simp [FocusWindow, GetClientData, DBGetSingletonClient, hc,
    sliceIdx_of_not_mem windowId c.WindowIds hmem]

theorem focusWindow_mem (w : World) (c : Client) (windowId : String)
    (hc : w.client = some c) (hmem : windowId ∈ c.WindowIds) :
    FocusWindow w windowId =
      (Except.ok (),
        recordUpdate
          { w with client := some { c with WindowIds := windowId :: c.WindowIds.erase windowId } }
          (UpdateRecord.updatedClient { c with WindowIds := windowId :: c.WindowIds.erase windowId })) := by
  obtain ⟨n, h1, _, h3⟩ := sliceIdx_spec windowId c.WindowIds hmem
  have hne : ¬((n : Int) = -1) := by omega
  simp only [FocusWindow, GetClientData, DBGetSingletonClient, hc, h1]
  rw [if_neg hne]
  have htn : ((n : Int)).toNat = n := by omega
  rw [htn, h3]
  simp [DBUpdateClient, hc]

theorem bootstrap_eq_loop (w : World) (c : Client) (wid : String) (rest : List String)
    (win : Window) (hc : w.client = some c) (hwids : c.WindowIds = wid :: rest)
    (hwin : DBMustGetWindow w wid = Except.ok win) :
    BootstrapStarterLayout w = bootstrapLoop win.ActiveTabId wid starterLayout w := by
  simp only [BootstrapStarterLayout, DBGetSingletonClient, hc, hwids, hwin]

theorem bootstrap_state_mono (w : World) :
    (BootstrapStarterLayout w).2.hasJournal = w.hasJournal ∧
    (BootstrapStarterLayout w).2.client = w.client ∧
    ∃ t, (BootstrapStarterLayout w).2.journal = w.journal ++ t := by
  rcases hc : w.client with _ | c
  · have hB : BootstrapStarterLayout w =
        (Except.error ("unable to find client: " ++ "singleton not found"), w) := by
      simp only [BootstrapStarterLayout, DBGetSingletonClient, hc]
    rw [hB]
    exact ⟨rfl, by simp [hc], [], by simp⟩
  · rcases hwids : c.WindowIds with _ | ⟨wid, rest⟩
    · have hB : BootstrapStarterLayout w =
          (Except.error "error bootstrapping layout, no windows exist", w) := by
        simp only [BootstrapStarterLayout, DBGetSingletonClient, hc, hwids]
      rw [hB]
      exact ⟨rfl, by simp [hc], [], by simp⟩
    · rcases hwin : DBMustGetWindow w wid with e | win
      · have hB : BootstrapStarterLayout w =
            (Except.error ("error getting window: " ++ e), w) := by
          simp only [BootstrapStarterLayout, DBGetSingletonClient, hc, hwids, hwin]
        rw [hB]
        exact ⟨rfl, by simp [hc], [], by simp⟩
      · rw [bootstrap_eq_loop w c wid rest win hc hwids hwin]
        obtain ⟨h1, h2, h3⟩ := bootstrapLoop_mono win.ActiveTabId wid starterLayout w
        exact ⟨h1, by rw [h2, hc], h3⟩

theorem blocksFor_length (tabId : String) :
    ∀ (n : Nat) (steps : List PortableLayoutItem),
      (blocksFor tabId n steps).length = steps.length := by
  intro n steps
  induction steps generalizing n with
  | nil => rfl
  | cons item rest ih => simp [blocksFor, ih]

theorem eventsFor_length (tabId windowId : String) :
    ∀ (n : Nat) (steps : List PortableLayoutItem),
      (eventsFor tabId windowId n steps).length = steps.length := by
  intro n steps
  induction steps generalizing n with
  | nil => rfl
  | cons item rest ih => simp [eventsFor, ih]

/-- C3: For every Client whose WindowIds list is empty, BootstrapStarterLayout
returns an error, creates no Blocks, and emits no events. -/
theorem bootstrapStarterLayout_no_windows (w : World) (c : Client)
    (hc : w.client = some c) (hwids : c.WindowIds = []) :
    (BootstrapStarterLayout w).1 =
      Except.error "error bootstrapping layout, no windows exist" ∧
    (BootstrapStarterLayout w).2.blocks = w.blocks ∧
    (BootstrapStarterLayout w).2.events = w.events ∧
    (BootstrapStarterLayout w).2 = w := by
  have hB : BootstrapStarterLayout w =
      (Except.error "error bootstrapping layout, no windows exist", w) := by
    simp only [BootstrapStarterLayout, DBGetSingletonClient, hc, hwids]
  rw [hB]
  exact ⟨rfl, rfl, rfl, rfl⟩

theorem bootstrapStarterLayout_no_windows_witness :
    wNoWin.client = some { OID := "client1", WindowIds := [], TosAgreed := 0 } ∧
    (BootstrapStarterLayout wNoWin).1 =
      Except.error "error bootstrapping layout, no windows exist" :=
  ⟨rfl, (bootstrapStarterLayout_no_windows wNoWin
    { OID := "client1", WindowIds := [], TosAgreed := 0 } rfl rfl).1⟩

/-- C5: For every Client state and every windowId present in Client.WindowIds,
FocusWindow removes that ID from its position and reinserts it at index 0,
preserving the relative order of all other entries, and persists the updated
Client record; the resulting list is a permutation of the original. -/
theorem focusWindow_moves_to_front (w : World) (c : Client) (windowId : String)
    (hc : w.client = some c) (hmem : windowId ∈ c.WindowIds) :
    (FocusWindow w windowId).1 = Except.ok () ∧
    (FocusWindow w windowId).2.client =
      some { c with WindowIds := windowId :: c.WindowIds.erase windowId } ∧
    (windowId :: c.WindowIds.erase windowId).Perm c.WindowIds := by
  rw [focusWindow_mem w c windowId hc hmem]
  exact ⟨rfl, by simp, (List.perm_cons_erase hmem).symm⟩

theorem focusWindow_moves_to_front_witness :
    wThreeWin.client = some { OID := "client1", WindowIds := ["a", "b", "c"], TosAgreed := 0 } ∧
    ("b" : String) ∈ ["a", "b", "c"] ∧
    (FocusWindow wThreeWin "b").2.client =
      some { OID := "client1", WindowIds := ["b", "a", "c"], TosAgreed := 0 } := by
  refine ⟨rfl, by decide, ?_⟩
  have h := (focusWindow_moves_to_front wThreeWin
    { OID := "client1", WindowIds := ["a", "b", "c"], TosAgreed := 0 } "b" rfl (by decide)).2.1
  rw [h]
  rfl

/-- C6: For every Client state and every windowId not present in
Client.WindowIds, FocusWindow returns no error, leaves Client.WindowIds
unchanged, and performs no store update. -/
theorem focusWindow_unknown_noop (w : World) (c : Client) (windowId : String)
    (hc : w.client = some c) (hmem : windowId ∉ c.WindowIds) :
    (FocusWindow w windowId).1 = Except.ok () ∧
    (FocusWindow w windowId).2 = w := by
  rw [focusWindow_not_mem w c windowId hc hmem]
  exact ⟨rfl, rfl⟩

theorem focusWindow_unknown_noop_witness :
    wThreeWin.client = some { OID := "client1", WindowIds := ["a", "b", "c"], TosAgreed := 0 } ∧
    ("z" : String) ∉ ["a", "b", "c"] ∧
    (FocusWindow wThreeWin "z").2 = wThreeWin :=
  ⟨rfl, by decide, (focusWindow_unknown_noop wThreeWin
    { OID := "client1", WindowIds := ["a", "b", "c"], TosAgreed := 0 } "z" rfl (by decide)).2⟩

/-- C7: FocusWindow is idempotent: applying it twice with the same windowId
yields the same final Client.WindowIds as applying it once. -/
theorem focusWindow_idempotent (w : World) (windowId : String) :
    clientWindowIds (FocusWindow (FocusWindow w windowId).2 windowId).2 =
      clientWindowIds (FocusWindow w windowId).2 := by
  rcases hc : w.client with _ | c
  · have h1 : (FocusWindow w windowId).2 = w := by
      rw [focusWindow_no_client w windowId hc]
    rw [h1, h1]
  · by_cases hmem : windowId ∈ c.WindowIds
    · have h1 := focusWindow_mem w c windowId hc hmem
      have h2 : (FocusWindow w windowId).2.client =
          some { c with WindowIds := windowId :: c.WindowIds.erase windowId } := by
        rw [h1]; simp
      have hmem2 : windowId ∈
          (Client.WindowIds { c with WindowIds := windowId :: c.WindowIds.erase windowId }) :=
        List.mem_cons_self _ _
      have h3 := focusWindow_mem (FocusWindow w windowId).2
        { c with WindowIds := windowId :: c.WindowIds.erase windowId } windowId h2 hmem2
      have hL : clientWindowIds (FocusWindow (FocusWindow w windowId).2 windowId).2 =
          some (windowId :: c.WindowIds.erase windowId) := by
        rw [h3]
        simp [clientWindowIds, List.erase_cons_head]
      have hR : clientWindowIds (FocusWindow w windowId).2 =
          some (windowId :: c.WindowIds.erase windowId) := by
        simp [clientWindowIds, h2]
      rw [hL, hR]
    · have h1 : (FocusWindow w windowId).2 = w := by
        rw [focusWindow_not_mem w c windowId hc hmem]
      rw [h1, h1]

/-- C8: The fixed starter-layout step list is in tree-construction order:
every index path of length greater than one is preceded by a step whose
index path is its immediate parent prefix. -/
theorem starterLayout_tree_construction_order :
    isTreeConstructionOrder (starterLayout.map PortableLayoutItem.IndexArr) := by
  unfold isTreeConstructionOrder starterLayout
  decide

/-- C1: For every Client whose WindowIds list is non-empty and whose first
window resolves with an ActiveTabId, when every block creation succeeds,
BootstrapStarterLayout creates exactly 7 Blocks and emits exactly 7
layout-insert events to the first window in Client.WindowIds, in the same
relative order as the fixed step list, each event carrying that step's index
path, the OID of the block created in that step, and the window's active tab. -/
theorem bootstrapStarterLayout_seven (w : World) (c : Client) (wid : String)
    (rest : List String) (win : Window)
    (hc : w.client = some c) (hwids : c.WindowIds = wid :: rest)
    (hwin : DBMustGetWindow w wid = Except.ok win)
    (hfail : w.failSchedule = []) :
    (BootstrapStarterLayout w).1 = Except.ok () ∧
    starterLayout.length = 7 ∧
    (BootstrapStarterLayout w).2.blocks =
      w.blocks ++ blocksFor win.ActiveTabId w.nextOid starterLayout ∧
    (blocksFor win.ActiveTabId w.nextOid starterLayout).length = 7 ∧
    (BootstrapStarterLayout w).2.events =
      w.events ++ eventsFor win.ActiveTabId wid w.nextOid starterLayout ∧
    (eventsFor win.ActiveTabId wid w.nextOid starterLayout).length = 7 := by
  rw [bootstrap_eq_loop w c wid rest win hc hwids hwin]
  obtain ⟨h1, hb, he, _, _⟩ := bootstrapLoop_ok win.ActiveTabId wid starterLayout w hfail
  refine ⟨h1, rfl, hb, ?_, he, ?_⟩
  · rw [blocksFor_length]; rfl
  · rw [eventsFor_length]; rfl

theorem bootstrapStarterLayout_seven_witness :
    wOneWin.client = some { OID := "client1", WindowIds := ["win1"], TosAgreed := 0 } ∧
    DBMustGetWindow wOneWin "win1" = Except.ok { OID := "win1", ActiveTabId := "tab1" } ∧
    wOneWin.failSchedule = [] ∧
    (BootstrapStarterLayout wOneWin).1 = Except.ok () := by
  refine ⟨rfl, by simp [DBMustGetWindow, wOneWin], rfl, ?_⟩
  exact (bootstrapStarterLayout_seven wOneWin
    { OID := "client1", WindowIds := ["win1"], TosAgreed := 0 } "win1" []
    { OID := "win1", ActiveTabId := "tab1" } rfl rfl
    (by simp [DBMustGetWindow, wOneWin]) rfl).1

/-- C2: For every k with 1 < k ≤ 7, if block creation fails at step k of
BootstrapStarterLayout, the blocks of steps 1..k-1 remain persisted and their
events remain delivered, no event is emitted for step k or later, no block is
created after step k, and an error is returned; completed steps are not
rolled back. -/
theorem bootstrapStarterLayout_partial_failure (w : World) (c : Client) (wid : String)
    (rest : List String) (win : Window) (k : Nat)
    (hc : w.client = some c) (hwids : c.WindowIds = wid :: rest)
    (hwin : DBMustGetWindow w wid = Except.ok win)
    (hk1 : 1 < k) (hk7 : k ≤ 7)
    (hfail : w.failSchedule = List.replicate (k - 1) false ++ [true]) :
    (∃ e, (BootstrapStarterLayout w).1 = Except.error e) ∧
    (BootstrapStarterLayout w).2.blocks =
      w.blocks ++ blocksFor win.ActiveTabId w.nextOid (starterLayout.take (k - 1)) ∧
    (blocksFor win.ActiveTabId w.nextOid (starterLayout.take (k - 1))).length = k - 1 ∧
    (BootstrapStarterLayout w).2.events =
      w.events ++ eventsFor win.ActiveTabId wid w.nextOid (starterLayout.take (k - 1)) ∧
    (eventsFor win.ActiveTabId wid w.nextOid (starterLayout.take (k - 1))).length = k - 1 := by
  rw [bootstrap_eq_loop w c wid rest win hc hwids hwin]
  have hsl : starterLayout.length = 7 := rfl
  have hlen : k - 1 < starterLayout.length := by omega
  obtain ⟨he, hb, hev, _⟩ :=
    bootstrapLoop_fail win.ActiveTabId wid (k - 1) starterLayout w hfail hlen
  refine ⟨he, hb, ?_, hev, ?_⟩
  · rw [blocksFor_length, List.length_take]
    omega
  · rw [eventsFor_length, List.length_take]
    omega

theorem bootstrapStarterLayout_partial_failure_witness :
    (1 < 3 ∧ 3 ≤ 7 ∧
      wFailAt3.failSchedule = List.replicate (3 - 1) false ++ [true]) ∧
    (∃ e, (BootstrapStarterLayout wFailAt3).1 = Except.error e) ∧
    (BootstrapStarterLayout wFailAt3).2.blocks.length = 2 := by
  refine ⟨⟨by decide, by decide, rfl⟩, ?_, ?_⟩
  · exact (bootstrapStarterLayout_partial_failure wFailAt3
      { OID := "client1", WindowIds := ["win1"], TosAgreed := 0 } "win1" []
      { OID := "win1", ActiveTabId := "tab1" } 3 rfl rfl
      (by simp [DBMustGetWindow, wFailAt3, wOneWin]) (by decide) (by decide) rfl).1
  · have h := (bootstrapStarterLayout_partial_failure wFailAt3
      { OID := "client1", WindowIds := ["win1"], TosAgreed := 0 } "win1" []
      { OID := "win1", ActiveTabId := "tab1" } 3 rfl rfl
      (by simp [DBMustGetWindow, wFailAt3, wOneWin]) (by decide) (by decide) rfl).2.1
    rw [h]
    simp [wFailAt3, wOneWin, blocksFor_length]
    decide

/-- C4 counterexample: at a concrete client with no windows, the
BootstrapStarterLayout call made inside AgreeTos fails (re-running it on
AgreeTos's final state — which the failing bootstrap left unchanged —
exhibits the error), yet AgreeTos reports no error to its caller. -/
theorem agreeTos_drops_bootstrap_error :
    (BootstrapStarterLayout (AgreeTos 1 wNoWin).2).1 =
      Except.error "error bootstrapping layout, no windows exist" ∧
    (AgreeTos 1 wNoWin).1.2 = none := by
  constructor <;> rfl

/-- C4 amended: store errors that AgreeTos itself inspects (resolving and
updating the client) are wrapped with an operation description and returned
to its caller, but the error result of the BootstrapStarterLayout call is
discarded: whenever the client exists, AgreeTos returns a nil error even if
the bootstrap failed. -/
theorem agreeTos_error_handling (w : World) (ts : Int) :
    (w.client = none →
      (AgreeTos ts w).1.2 =
        some ("error getting client data: " ++ "singleton not found")) ∧
    (∀ c, w.client = some c → (AgreeTos ts w).1.2 = none) := by
  constructor
  · intro hc
    have h0 : DBGetSingletonClient (ContextWithUpdates w) =
        Except.error "singleton not found" := by
      simp [DBGetSingletonClient, hc]
    simp only [AgreeTos, h0]
  · intro c hc
    have h0 : DBGetSingletonClient (ContextWithUpdates w) = Except.ok c := by
      simp [DBGetSingletonClient, hc]
    have h1 : DBUpdateClient (ContextWithUpdates w) { c with TosAgreed := ts } =
        (Except.ok (),
          recordUpdate { ContextWithUpdates w with client := some { c with TosAgreed := ts } }
            (UpdateRecord.updatedClient { c with TosAgreed := ts })) := by
      simp [DBUpdateClient, hc]
    simp only [AgreeTos, h0, h1]

theorem agreeTos_error_handling_witness :
    wNoClient.client = none ∧
    (AgreeTos 1 wNoClient).1.2 =
      some ("error getting client data: " ++ "singleton not found") :=
  ⟨rfl, (agreeTos_error_handling wNoClient 1).1 rfl⟩

/-- C9: AgreeTos opens a journal-carrying context before any mutation,
performs the client update (and the bootstrap it triggers) through it, and
hands the journal's accumulated batch back to its caller: the returned batch
is exactly the final context's journal, whose first record is the client
update when the client exists. -/
theorem agreeTos_journal_contract (w : World) (ts : Int) (hj : w.hasJournal = false) :
    (AgreeTos ts w).2.hasJournal = true ∧
    (AgreeTos ts w).1.1 = (AgreeTos ts w).2.journal ∧
    (∀ c, w.client = some c →
      ∃ t, (AgreeTos ts w).2.journal =
        UpdateRecord.updatedClient { c with TosAgreed := ts } :: t) := by
  have hw0 : ContextWithUpdates w = { w with hasJournal := true, journal := [] } := by
    unfold ContextWithUpdates
    rw [hj]
    rfl
  rcases hc : w.client with _ | c
  · have h0 : DBGetSingletonClient { w with hasJournal := true, journal := [] } =
        Except.error "singleton not found" := by
      simp [DBGetSingletonClient, hc]
    have hA : AgreeTos ts w =
        (([], some ("error getting client data: " ++ "singleton not found")),
          { w with hasJournal := true, journal := [] }) := by
      simp only [AgreeTos, hw0, h0]
    have hA2 : (AgreeTos ts w).2 = { w with hasJournal := true, journal := [] } := by
      rw [hA]
    have hA11 : (AgreeTos ts w).1.1 = [] := by rw [hA]
    refine ⟨by rw [hA2], by rw [hA11, hA2], ?_⟩
    intro c0 hc0
    exact Option.noConfusion hc0
  · have h0 : DBGetSingletonClient { w with hasJournal := true, journal := [] } =
        Except.ok c := by
      simp [DBGetSingletonClient, hc]
    have h1 : DBUpdateClient { w with hasJournal := true, journal := [] }
          { c with TosAgreed := ts } =
        (Except.ok (),
          { w with hasJournal := true,
                   journal := [UpdateRecord.updatedClient { c with TosAgreed := ts }],
                   client := some { c with TosAgreed := ts } }) := by
      simp only [DBUpdateClient]
      rw [show ({ w with hasJournal := true, journal := [] } : World).client = some c from hc]
      unfold recordUpdate
      simp
    have hA : AgreeTos ts w =
        ((ContextGetUpdatesRtn (BootstrapStarterLayout
            { w with hasJournal := true,
                     journal := [UpdateRecord.updatedClient { c with TosAgreed := ts }],
                     client := some { c with TosAgreed := ts } }).2, none),
          (BootstrapStarterLayout
            { w with hasJournal := true,
                     journal := [UpdateRecord.updatedClient { c with TosAgreed := ts }],
                     client := some { c with TosAgreed := ts } }).2) := by
      simp only [AgreeTos, hw0, h0, h1]
    obtain ⟨hjm, _, t, htm⟩ := bootstrap_state_mono
      { w with hasJournal := true,
               journal := [UpdateRecord.updatedClient { c with TosAgreed := ts }],
               client := some { c with TosAgreed := ts } }
    have hA2 : (AgreeTos ts w).2 = (BootstrapStarterLayout
        { w with hasJournal := true,
                 journal := [UpdateRecord.updatedClient { c with TosAgreed := ts }],
                 client := some { c with TosAgreed := ts } }).2 := by
      rw [hA]
    have hA11 : (AgreeTos ts w).1.1 = ContextGetUpdatesRtn (BootstrapStarterLayout
        { w with hasJournal := true,
                 journal := [UpdateRecord.updatedClient { c with TosAgreed := ts }],
                 client := some { c with TosAgreed := ts } }).2 := by
      rw [hA]
    refine ⟨by rw [hA2, hjm], by rw [hA11, hA2]; rfl, ?_⟩
    intro c0 hc0
    obtain rfl : c = c0 := Option.some.inj hc0
    exact ⟨t, by rw [hA2, htm]; rfl⟩

theorem agreeTos_journal_contract_witness :
    wOneWin.hasJournal = false ∧
    (AgreeTos 7 wOneWin).1.1 = (AgreeTos 7 wOneWin).2.journal :=
  ⟨rfl, (agreeTos_journal_contract wOneWin 7 rfl).2.1⟩

/-- C10: A successful AgreeTos changes only the TosAgreed field of the
singleton Client record to the given timestamp; every other field of the
Client, including WindowIds and OID, is unchanged. -/
theorem agreeTos_frame (w : World) (ts : Int) (c : Client) (hc : w.client = some c) :
    (AgreeTos ts w).1.2 = none ∧
    (AgreeTos ts w).2.client = some { c with TosAgreed := ts } ∧
    (∀ c0, (AgreeTos ts w).2.client = some c0 →
      c0.WindowIds = c.WindowIds ∧ c0.OID = c.OID ∧ c0.TosAgreed = ts) := by
  have h0 : DBGetSingletonClient (ContextWithUpdates w) = Except.ok c := by
    simp [DBGetSingletonClient, hc]
  have h1 : DBUpdateClient (ContextWithUpdates w) { c with TosAgreed := ts } =
      (Except.ok (),
        recordUpdate { ContextWithUpdates w with client := some { c with TosAgreed := ts } }
          (UpdateRecord.updatedClient { c with TosAgreed := ts })) := by
    simp [DBUpdateClient, hc]
  have hA : AgreeTos ts w =
      ((ContextGetUpdatesRtn (BootstrapStarterLayout
          (recordUpdate { ContextWithUpdates w with client := some { c with TosAgreed := ts } }
            (UpdateRecord.updatedClient { c with TosAgreed := ts }))).2, none),
        (BootstrapStarterLayout
          (recordUpdate { ContextWithUpdates w with client := some { c with TosAgreed := ts } }
            (UpdateRecord.updatedClient { c with TosAgreed := ts }))).2) := by
    simp only [AgreeTos, h0, h1]
  obtain ⟨_, hcm, _⟩ := bootstrap_state_mono
    (recordUpdate { ContextWithUpdates w with client := some { c with TosAgreed := ts } }
      (UpdateRecord.updatedClient { c with TosAgreed := ts }))
  have hcl : (BootstrapStarterLayout
      (recordUpdate { ContextWithUpdates w with client := some { c with TosAgreed := ts } }
        (UpdateRecord.updatedClient { c with TosAgreed := ts }))).2.client =
      some { c with TosAgreed := ts } := by
    rw [hcm]
    simp
  rw [hA]
  refine ⟨rfl, hcl, ?_⟩
  intro c0 hc0
  rw [hcl] at hc0
  cases hc0
  exact ⟨rfl, rfl, rfl⟩

theorem agreeTos_frame_witness :
    wThreeWin.client = some { OID := "client1", WindowIds := ["a", "b", "c"], TosAgreed := 0 } ∧
    (AgreeTos 9 wThreeWin).2.client =
      some { OID := "client1", WindowIds := ["a", "b", "c"], TosAgreed := 9 } :=
  ⟨rfl, (agreeTos_frame wThreeWin 9
    { OID := "client1", WindowIds := ["a", "b", "c"], TosAgreed := 0 } rfl).2.1⟩
